import Mathlib

/-!
Verification of the NHCMA submission-intake applications
(`NHCMA_Grants_App_Supabase.py` and `NHCMA_Posters_App.py`).

The two scripts are embedded shallowly: every external collaborator call
(object-storage write, URL signing, public-URL request, datastore insert,
SMTP send) and every user-visible message is recorded as an `Event` in a
trace, and the collaborators' outcomes are supplied by a `World` record of
response functions, so that the pipelines are pure functions from inputs
and collaborator behaviour to a result plus an ordered trace.
-/

namespace NHCMA

/-- Python string truthiness for an optional string: `None` and `""` are falsy. -/
def pyTruthy : Option String → Bool
  | none => false
  | some s => !(s == "")

/-- Python `(x or "")` for an optional string. -/
def pyOrStr : Option String → String
  | none => ""
  | some s => s

/-- Python `x or default` for an optional string (used for MIME-type defaults). -/
def pyOrDefault (x : Option String) (d : String) : String :=
  if pyTruthy x then pyOrStr x else d

/-- Python truthiness of an optional integer: `None` and `0` are falsy.
Models `if rid:` on the value returned by the insert helpers. -/
def pyTruthyInt : Option Int → Bool
  | none => false
  | some n => !(n == 0)

/-- Python `a or b or ""` over two optional strings: the first truthy
(present and non-empty) value, else `""`.  Models
`signed.get("signedURL") or signed.get("signed_url") or ""`. -/
def pyFirstTruthy (a b : Option String) : String :=
  if pyTruthy a then pyOrStr a else if pyTruthy b then pyOrStr b else ""

/-- Python `s.strip()`: remove leading and trailing whitespace. -/
def pyStrip (s : String) : String :=
  String.mk (((s.data.dropWhile Char.isWhitespace).reverse.dropWhile
    Char.isWhitespace).reverse)

/-- Splitter for Python `s.split()`: accumulate the current word
(reversed) and cut at whitespace runs. -/
def wordsAux : List Char → List Char → List (List Char)
  | [], cur => if cur.isEmpty then [] else [cur.reverse]
  | c :: rest, cur =>
    if c.isWhitespace then
      if cur.isEmpty then wordsAux rest []
      else cur.reverse :: wordsAux rest []
    else wordsAux rest (c :: cur)

/-- Python `s.split()` with no arguments: split on whitespace runs,
discarding empty pieces. -/
def pySplitWs (s : String) : List String := (wordsAux s.data []).map String.mk

/-- Model of `len(abstract.split())` — whitespace-delimited word count. -/
def wordCount (s : String) : Nat := (pySplitWs s).length

/-- Embedding of `too_late` (grants app, lines 52–54).  Timezone-aware
datetimes are modeled as integer instants; `too_late(deadline)` compares
the current instant strictly against the cutoff. -/
def too_late (deadline now : Int) : Bool := decide (now > deadline)

/-- A UTC wall-clock instant as produced by `datetime.utcnow()`. -/
structure UtcTime where
  year : Nat
  month : Nat
  day : Nat
  hour : Nat
  minute : Nat
  second : Nat
deriving DecidableEq

/-- Zero-padded two-digit decimal field, as in `strftime`. -/
def pad2 (n : Nat) : String := if n < 10 then "0" ++ toString n else toString n

/-- Zero-padded four-digit decimal field, as in `strftime("%Y")`. -/
def pad4 (n : Nat) : String :=
  if n < 10 then "000" ++ toString n
  else if n < 100 then "00" ++ toString n
  else if n < 1000 then "0" ++ toString n
  else toString n

/-- Model of `datetime.utcnow().strftime("%Y%m%dT%H%M%SZ")` — compact ISO-basic
timestamp with second precision. -/
def strftime_compact (t : UtcTime) : String :=
  pad4 t.year ++ pad2 t.month ++ pad2 t.day ++ "T" ++
    pad2 t.hour ++ pad2 t.minute ++ pad2 t.second ++ "Z"

/-- Python `s.replace(c, r)` for a single-character pattern. -/
def replaceChar (c r : Char) (s : String) : String :=
  String.mk (s.data.map fun x => if x = c then r else x)

/-- Model of `file.name.replace("/", "_").replace("\\", "_")` — filename
sanitization used by both upload helpers. -/
def safe_name_of (name : String) : String :=
  replaceChar '\\' '_' (replaceChar '/' '_' name)

/-- Model of the f-string key `prefix/<timestamp>_<safe_name>` — the
storage key built by both upload helpers. -/
def storage_key (pfx : String) (now : UtcTime) (name : String) : String :=
  pfx ++ "/" ++ strftime_compact now ++ "_" ++ safe_name_of name

/-- Outcome of `create_signed_url`: an exception, a dict (with the two
possible URL keys), or some other value stringified by `str(...)`. -/
inductive SignResult where
  | exn (msg : String)
  | dictVal (signedURL signed_url : Option String)
  | otherVal (s : String)
deriving DecidableEq

/-- A Streamlit `UploadedFile`: its name, declared MIME type
(`getattr(file, "type", None)`), and the bytes obtained by
`getvalue()` / `read()` (`none` when both raise). -/
structure Blob where
  name : String
  mimeType : Option String
  bytesRead : Option (List Nat)
deriving DecidableEq

/-- One observable collaborator call or user-visible message, in the
order performed. -/
inductive Event where
  | warn (msg : String)
  | errorMsg (msg : String)
  | infoMsg (msg : String)
  | success (msg : String)
  | storagePut (bucket key contentType : String)
  | signUrl (bucket key : String) (expiresIn : Nat)
  | publicUrl (bucket key : String)
  | dbInsert (table : String)
  | smtpSend (toAddr : String) (cc : Option String) (subject : String)
deriving DecidableEq

/-- Collaborator behaviour: how storage, the datastore and the SMTP relay
respond.  `none` exception fields mean the call succeeds. -/
structure World where
  putExn : String → String → Option String
  signRes : String → String → SignResult
  publicRes : String → String → Option String
  insertRes : String → Option Int
  smtpExn : Option String

/-- The SMTP configuration globals (`SMTP_HOST` … `SMTP_FROM_NAME`).
`user`, `password` and `fromEmail` may be absent (`None`). -/
structure SmtpConfig where
  host : String
  port : Nat
  user : Option String
  password : Option String
  fromEmail : Option String
  fromName : String

/-- The fixed CC address `CC_EMAIL` used by both apps. -/
def CC_EMAIL : String := "nhcma@lutinemanagement.com"

/-- Embedding of `send_email` (identical in both apps; grants lines
150–171, posters lines 88–109).  Returns the boolean result and the
trace.  The HTML body is threaded through but never inspected by the
function, so it does not appear in the trace. -/
def send_email (cfg : SmtpConfig) (w : World) (to_email : String)
    (cc_email : Option String) (subject html_body : String) :
    Bool × List Event :=
  if !(pyTruthy cfg.user && pyTruthy cfg.password && pyTruthy cfg.fromEmail) then
    (false, [.warn "Email not sent: SMTP credentials are missing in secrets."])
  else
    match w.smtpExn with
    | none => (true, [.smtpSend to_email cc_email subject])
    | some e =>
      (false, [.smtpSend to_email cc_email subject,
               .warn ("Email send failed: " ++ e)])

namespace Grants

/-- Default bucket name for the grants app. -/
def BUCKET : String := "nhcma-uploads"

/-- Embedding of the grants `save_upload_to_storage` (lines 56–100). -/
def save_upload_to_storage (w : World) (now : UtcTime) (file : Option Blob)
    (pfx : String) : String × List Event :=
  match file with
  | none => ("", [])
  | some f =>
    let safe_name := safe_name_of f.name
    let key := storage_key pfx now f.name
    match f.bytesRead with
    | none =>
      ("", [.warn ("Upload failed for " ++ safe_name ++ ": could not read file bytes")])
    | some bs =>
      if bs.isEmpty then
        ("", [.warn ("Upload failed for " ++ safe_name ++ ": could not read file bytes")])
      else
        let content_type := pyOrDefault f.mimeType "application/octet-stream"
        match w.putExn BUCKET key with
        | some e =>
          ("", [.storagePut BUCKET key content_type,
                .warn ("Upload failed for " ++ safe_name ++ ": " ++ e)])
        | none =>
          match w.signRes BUCKET key with
          | .dictVal a b =>
            (pyFirstTruthy a b,
             [.storagePut BUCKET key content_type, .signUrl BUCKET key 604800])
          | .otherVal s =>
            (s, [.storagePut BUCKET key content_type, .signUrl BUCKET key 604800])
          | .exn e =>
            match w.publicRes BUCKET key with
            | some u =>
              (u, [.storagePut BUCKET key content_type,
                   .signUrl BUCKET key 604800,
                   .warn ("Could not create signed URL for " ++ safe_name ++ ": " ++ e),
                   .publicUrl BUCKET key])
            | none =>
              ("", [.storagePut BUCKET key content_type,
                    .signUrl BUCKET key 604800,
                    .warn ("Could not create signed URL for " ++ safe_name ++ ": " ++ e),
                    .publicUrl BUCKET key])

/-- Embedding of `insert_submission` (lines 102–120): attempt the insert
on the `submissions` table; the returned identifier (or `none` on any
exception / missing data / missing id) comes from the world. -/
def insert_submission (w : World) : Option Int × List Event :=
  (w.insertRes "submissions", [.dbInsert "submissions"])

/-- Embedding of `_missing_student_fields` (lines 197–209). -/
def _missing_student_fields (applicant_name school email phone
    project_title : Option String) : List String :=
  (if pyStrip (pyOrStr applicant_name) == "" then ["Applicant Name"] else []) ++
  (if pyStrip (pyOrStr school) == "" || school == some "— Select your school —" then
      ["Medical School (select an option)"] else []) ++
  (if pyStrip (pyOrStr email) == "" then ["School Email"] else []) ++
  (if pyStrip (pyOrStr phone) == "" then ["Phone"] else []) ++
  (if pyStrip (pyOrStr project_title) == "" then ["Project Title"] else [])

/-- Embedding of `_missing_org_fields` (lines 211–221). -/
def _missing_org_fields (org_name applicant_name email
    project_title : Option String) : List String :=
  (if pyStrip (pyOrStr org_name) == "" then ["Name of Organization"] else []) ++
  (if pyStrip (pyOrStr applicant_name) == "" then ["Applicant Name"] else []) ++
  (if pyStrip (pyOrStr email) == "" then ["Applicant Email"] else []) ++
  (if pyStrip (pyOrStr project_title) == "" then ["Project Title"] else [])

/-- The organization form's control-relevant inputs.  Fields that are
copied verbatim into `payload_json` without influencing control flow
(mission text, budget text, …) are not modeled. -/
structure OrgInput where
  submitted : Bool
  org_name : Option String
  applicant_name : Option String
  email : Option String
  phone : Option String
  eligible_nonprofit : Bool
  eligible_report : Bool
  eligible_benefit : Bool
  project_title : Option String
  proposal_pdf : Option Blob
  budget_file : Option Blob
  other_file : Option Blob

/-- Embedding of the submit branch of `org_form` (lines 296–309):
returns the effective `submitted` flag, the uploads mapping, and the
trace. -/
def org_form (w : World) (now : UtcTime) (inp : OrgInput) :
    Bool × List (String × String) × List Event :=
  if !inp.submitted then (false, [], [])
  else
    let missing := _missing_org_fields inp.org_name inp.applicant_name
        inp.email inp.project_title
    if !missing.isEmpty then
      (false, [],
       [.warn ("Please complete all required fields marked with * before submitting. Missing: " ++
               String.intercalate ", " missing)])
    else if !(inp.eligible_nonprofit && inp.eligible_report && inp.eligible_benefit) then
      (false, [], [.warn "Please confirm all eligibility checkboxes."])
    else
      let r1 := save_upload_to_storage w now inp.proposal_pdf "org_proposal"
      let r2 := save_upload_to_storage w now inp.budget_file "org_budget"
      let r3 := save_upload_to_storage w now inp.other_file "org_other"
      (true, [("proposal", r1.1), ("budget", r2.1), ("other", r3.1)],
       r1.2 ++ r2.2 ++ r3.2)

/-- Embedding of the `tab1` submit block (lines 486–497): insert, then on
a truthy id show success and send the confirmation email; otherwise show
the generic error. -/
def tab1 (w : World) (cfg : SmtpConfig) (now : UtcTime) (inp : OrgInput) :
    List Event :=
  let fr := org_form w now inp
  if fr.1 then
    let ins := insert_submission w
    if pyTruthyInt ins.1 then
      fr.2.2 ++ ins.2 ++
        [.success "Thank you! Your organization application has been submitted."] ++
        (send_email cfg w (pyOrStr inp.email) (some CC_EMAIL)
          "NHCMA Foundation — Organization Application Received (2025)" "").2
    else
      fr.2.2 ++ ins.2 ++
        [.errorMsg "There was a problem saving your submission. Please try again or contact support."]
  else fr.2.2

/-- The student form's control-relevant inputs. -/
structure StudentInput where
  submitted : Bool
  applicant_name : Option String
  school : Option String
  email : Option String
  phone : Option String
  elig_enrolled : Bool
  elig_report : Bool
  project_title : Option String
  proposal_pdf : Option Blob
  budget_file : Option Blob
  cv_file : Option Blob
  support_let : Option Blob

/-- Normalization of the school selector before validation
(lines 387–389): trim, and map the placeholder option to `""`. -/
def normalize_school (s : Option String) : String :=
  let s0 := pyStrip (pyOrStr s)
  if s0 == "— Select your school —" then "" else s0

/-- Embedding of the submit branch of `student_form` (lines 385–403). -/
def student_form (w : World) (now : UtcTime) (inp : StudentInput) :
    Bool × List (String × String) × List Event :=
  if !inp.submitted then (false, [], [])
  else
    let school_norm := normalize_school inp.school
    let missing := _missing_student_fields inp.applicant_name
        (some school_norm) inp.email inp.phone inp.project_title
    if !missing.isEmpty then
      (false, [],
       [.warn ("Please complete all required fields marked with * before submitting. Missing: " ++
               String.intercalate ", " missing)])
    else if !(inp.elig_enrolled && inp.elig_report) then
      (false, [], [.warn "Please confirm all eligibility checkboxes."])
    else
      let r1 := save_upload_to_storage w now inp.proposal_pdf "stu_proposal"
      let r2 := save_upload_to_storage w now inp.budget_file "stu_budget"
      let r3 := save_upload_to_storage w now inp.cv_file "stu_cv"
      let r4 := save_upload_to_storage w now inp.support_let "stu_support"
      (true,
       [("proposal", r1.1), ("budget", r2.1), ("cv", r3.1), ("support_letter", r4.1)],
       r1.2 ++ r2.2 ++ r3.2 ++ r4.2)

/-- Embedding of the `tab2` submit block (lines 499–510). -/
def tab2 (w : World) (cfg : SmtpConfig) (now : UtcTime) (inp : StudentInput) :
    List Event :=
  let fr := student_form w now inp
  if fr.1 then
    let ins := insert_submission w
    if pyTruthyInt ins.1 then
      fr.2.2 ++ ins.2 ++
        [.success "Thank you! Your student application has been submitted."] ++
        (send_email cfg w (pyOrStr inp.email) (some CC_EMAIL)
          "NHCMA Foundation — Student Application Received (2025)" "").2
    else
      fr.2.2 ++ ins.2 ++
        [.errorMsg "There was a problem saving your submission. Please try again or contact support."]
  else fr.2.2

end Grants

namespace Posters

/-- Hard-coded bucket for the posters app. -/
def POSTERS_BUCKET : String := "nhcma-posters"

/-- Embedding of the posters `save_upload_to_storage` (lines 111–146).
Differences from the grants variant: default MIME type is
`application/pdf`, and a signing failure returns `""` directly — no
warning and no public-URL fallback. -/
def save_upload_to_storage (w : World) (now : UtcTime) (file : Option Blob)
    (pfx : String) : String × List Event :=
  match file with
  | none => ("", [])
  | some f =>
    let safe_name := safe_name_of f.name
    let key := storage_key pfx now f.name
    match f.bytesRead with
    | none =>
      ("", [.warn ("Upload failed for " ++ safe_name ++ ": could not read file bytes")])
    | some bs =>
      if bs.isEmpty then
        ("", [.warn ("Upload failed for " ++ safe_name ++ ": could not read file bytes")])
      else
        let content_type := pyOrDefault f.mimeType "application/pdf"
        match w.putExn POSTERS_BUCKET key with
        | some e =>
          ("", [.storagePut POSTERS_BUCKET key content_type,
                .warn ("Upload failed for " ++ safe_name ++ ": " ++ e)])
        | none =>
          match w.signRes POSTERS_BUCKET key with
          | .dictVal a b =>
            (pyFirstTruthy a b,
             [.storagePut POSTERS_BUCKET key content_type,
              .signUrl POSTERS_BUCKET key 604800])
          | .otherVal s =>
            (s, [.storagePut POSTERS_BUCKET key content_type,
                 .signUrl POSTERS_BUCKET key 604800])
          | .exn _ =>
            ("", [.storagePut POSTERS_BUCKET key content_type,
                  .signUrl POSTERS_BUCKET key 604800])

/-- Embedding of `insert_poster` (lines 148–157). -/
def insert_poster (w : World) : Option Int × List Event :=
  (w.insertRes "posters", [.dbInsert "posters"])

/-- The poster form's inputs.  Streamlit text widgets yield strings
(never `None`), matching the direct `.strip()` / `.split()` calls in the
source. -/
structure PosterInput where
  category : String
  lead_author : String
  contact_email : String
  inst_lead : String
  co1 : String
  co2 : String
  co3 : String
  inst_co1 : String
  inst_co2 : String
  inst_co3 : String
  title : String
  abstract : String
  poster_file : Option Blob
deriving DecidableEq

/-- Model of `required = [category, lead_author, title, abstract, contact_email]`
and `all((x or "").strip() for x in required)` (lines 210–211). -/
def poster_required_ok (inp : PosterInput) : Bool :=
  [inp.category, inp.lead_author, inp.title, inp.abstract,
   inp.contact_email].all fun x => !(pyStrip x == "")

/-- Model of `len(abstract.split()) > 250` (line 213). -/
def abstract_too_long (abstract : String) : Bool :=
  wordCount abstract > 250

/-- The hand-built duplicate token (lines 217–225): pipe-joined category,
trimmed lead author, trimmed contact email, trimmed title, decimal
character length of the trimmed abstract, and the poster filename. -/
def submission_token (inp : PosterInput) : String :=
  String.intercalate "|"
    [pyStrip inp.category, pyStrip inp.lead_author, pyStrip inp.contact_email,
     pyStrip inp.title, toString (pyStrip inp.abstract).length,
     match inp.poster_file with
     | some f => f.name
     | none => ""]

/-- Embedding of the poster submit block (lines 209–269).  Takes the
session-state slot `last_poster_token` and returns its new value plus the
trace. -/
def poster_submit_block (w : World) (cfg : SmtpConfig) (now : UtcTime)
    (lastToken : Option String) (submit : Bool) (inp : PosterInput) :
    Option String × List Event :=
  if !submit then (lastToken, [])
  else if !poster_required_ok inp then
    (lastToken, [.warn "Please complete all required fields marked with *."])
  else if abstract_too_long inp.abstract then
    (lastToken, [.warn "Abstract appears to exceed 250 words. Please shorten."])
  else
    let tok := submission_token inp
    if lastToken == some tok then
      (lastToken, [.infoMsg "This submission was already received. (Duplicate prevented)"])
    else
      let up :=
        match inp.poster_file with
        | some _ => save_upload_to_storage w now inp.poster_file "posters"
        | none => ("", [])
      let ins := insert_poster w
      if pyTruthyInt ins.1 then
        (some tok,
         up.2 ++ ins.2 ++ [.success "Thank you! Your poster has been submitted."] ++
           (send_email cfg w inp.contact_email (some CC_EMAIL)
             "NHCMA — Poster Submission Received" "").2)
      else
        (lastToken,
         up.2 ++ ins.2 ++
           [.errorMsg "There was a problem saving your submission. Please try again or contact support."])

end Posters

/-- Is the event a call on an external collaborator (storage, datastore,
or SMTP relay)?  Messages shown to the user are not collaborator calls. -/
def Event.isCollab : Event → Bool
  | .storagePut _ _ _ => true
  | .signUrl _ _ _ => true
  | .publicUrl _ _ => true
  | .dbInsert _ => true
  | .smtpSend _ _ _ => true
  | _ => false

/-- Is the event an SMTP send? -/
def Event.isSmtp : Event → Bool
  | .smtpSend _ _ _ => true
  | _ => false

/-- Is the event an upload-helper event (storage call or warning)? -/
def Event.isUploadEvt : Event → Bool
  | .storagePut _ _ _ => true
  | .signUrl _ _ _ => true
  | .publicUrl _ _ => true
  | .warn _ => true
  | _ => false

/-- Is the event a public-URL request? -/
def Event.isPublicReq : Event → Bool
  | .publicUrl _ _ => true
  | _ => false

/-- No collaborator is ever called in the trace. -/
def noCollabCalls (tr : List Event) : Bool := tr.all fun e => !e.isCollab

/-- No email is ever sent in the trace. -/
def noSmtp (tr : List Event) : Bool := tr.all fun e => !e.isSmtp

/-- Some email is sent in the trace. -/
def hasSmtp (tr : List Event) : Bool := tr.any Event.isSmtp

/-! ### Trace-shape lemmas for the collaborator helpers -/

lemma grants_save_evts (w : World) (now : UtcTime) (f : Option Blob)
    (pfx : String) :
    ((Grants.save_upload_to_storage w now f pfx).2).all Event.isUploadEvt = true := by
  unfold Grants.save_upload_to_storage
  repeat' split
  all_goals try dsimp only
  all_goals repeat' split
  all_goals rfl

lemma posters_save_evts (w : World) (now : UtcTime) (f : Option Blob)
    (pfx : String) :
    ((Posters.save_upload_to_storage w now f pfx).2).all Event.isUploadEvt = true := by
  unfold Posters.save_upload_to_storage
  repeat' split
  all_goals try dsimp only
  all_goals repeat' split
  all_goals rfl

lemma upload_evt_not_smtp {e : Event} (h : e.isUploadEvt = true) :
    e.isSmtp = false := by
  cases e <;> simp_all [Event.isUploadEvt, Event.isSmtp]

lemma upload_evt_not_infoMsg {e : Event} (h : e.isUploadEvt = true) (m : String) :
    e ≠ .infoMsg m := by
  cases e <;> simp_all [Event.isUploadEvt]

lemma noSmtp_of_upload_evts {tr : List Event}
    (h : tr.all Event.isUploadEvt = true) : noSmtp tr = true := by
  simp only [noSmtp, List.all_eq_true] at h ⊢
  intro e he
  simpa using upload_evt_not_smtp (h e he)

lemma noSmtp_append {a b : List Event} (ha : noSmtp a = true)
    (hb : noSmtp b = true) : noSmtp (a ++ b) = true := by
  simp only [noSmtp] at ha hb ⊢
  rw [List.all_append, ha, hb]
  rfl

lemma infoMsg_not_mem_of_upload_evts {tr : List Event}
    (h : tr.all Event.isUploadEvt = true) (m : String) :
    Event.infoMsg m ∉ tr := by
  rw [List.all_eq_true] at h
  intro hmem
  exact absurd rfl (upload_evt_not_infoMsg (h _ hmem) m)

lemma send_email_no_infoMsg (cfg : SmtpConfig) (w : World) (t : String)
    (c : Option String) (s h : String) (m : String) :
    Event.infoMsg m ∉ (send_email cfg w t c s h).2 := by
  unfold send_email
  split
  · simp
  · split <;> simp

/-- C4. The deadline gate closes strictly after the cutoff: `too_late`
returns true exactly when the current instant exceeds the deadline, and
the window is still open at the cutoff instant itself. -/
theorem c4_deadline_gate_strict (C T : Int) :
    (too_late C T = true ↔ T > C) ∧ too_late C C = false := by
  constructor
  · simp [too_late]
  · simp [too_late]

/-- C10. If the blob's bytes read back empty (`b''`), both upload helpers
emit the could-not-read warning and return the empty string without any
storage write, URL signing, or public-URL request — exactly the same
observable result as a failed upload. -/
theorem c10_empty_bytes_short_circuit (w : World) (now : UtcTime) (b : Blob)
    (pfx : String) (hb : b.bytesRead = some []) :
    Grants.save_upload_to_storage w now (some b) pfx =
      ("", [.warn ("Upload failed for " ++ safe_name_of b.name ++ ": could not read file bytes")]) ∧
    Posters.save_upload_to_storage w now (some b) pfx =
      ("", [.warn ("Upload failed for " ++ safe_name_of b.name ++ ": could not read file bytes")]) := by
  constructor
  · unfold Grants.save_upload_to_storage
    dsimp only
    rw [hb]
    rfl
  · unfold Posters.save_upload_to_storage
    dsimp only
    rw [hb]
    rfl

/-! ### C5: the required-field validators -/

/-- Membership in a filter-by-flag projection. -/
lemma mem_filter_true_map (l : List (String × Bool)) (lbl : String) :
    (lbl ∈ (l.filter fun x => x.2).map fun x => x.1) ↔ (lbl, true) ∈ l := by
  induction l with
  | nil => simp
  | cons a l ih =>
    obtain ⟨s, b⟩ := a
    cases b <;> simp [List.filter_cons, ih]

/-- The student track's required fields, in declared order, paired with
the spec's emptiness test (trimmed-empty; the school selector also counts
its placeholder option as empty).  Stated from the spec's words for
comparison with `_missing_student_fields`. -/
def studentRequiredSpec (a s e p t : Option String) : List (String × Bool) :=
  [("Applicant Name", pyStrip (pyOrStr a) == ""),
   ("Medical School (select an option)",
     pyStrip (pyOrStr s) == "" || s == some "— Select your school —"),
   ("School Email", pyStrip (pyOrStr e) == ""),
   ("Phone", pyStrip (pyOrStr p) == ""),
   ("Project Title", pyStrip (pyOrStr t) == "")]

/-- The organization track's required fields, in declared order, paired
with the spec's emptiness test.  Stated from the spec's words for
comparison with `_missing_org_fields`. -/
def orgRequiredSpec (o a e t : Option String) : List (String × Bool) :=
  [("Name of Organization", pyStrip (pyOrStr o) == ""),
   ("Applicant Name", pyStrip (pyOrStr a) == ""),
   ("Applicant Email", pyStrip (pyOrStr e) == ""),
   ("Project Title", pyStrip (pyOrStr t) == "")]

/-- C5. Each validator returns exactly the labels of its track's fixed
required list whose field is empty after trimming (with the school
placeholder counting as empty): the result is the order-preserving,
duplicate-free sublist of the declared labels, and a label is reported
missing iff its field's emptiness test holds. -/
theorem c5_validator_missing_fields (a s e p t og oa oe ot : Option String) :
    (Grants._missing_student_fields a s e p t =
        ((studentRequiredSpec a s e p t).filter fun x => x.2).map fun x => x.1) ∧
    (Grants._missing_student_fields a s e p t).Sublist
        ((studentRequiredSpec a s e p t).map fun x => x.1) ∧
    (Grants._missing_student_fields a s e p t).Nodup ∧
    (∀ lbl, lbl ∈ Grants._missing_student_fields a s e p t ↔
        (lbl, true) ∈ studentRequiredSpec a s e p t) ∧
    (Grants._missing_org_fields og oa oe ot =
        ((orgRequiredSpec og oa oe ot).filter fun x => x.2).map fun x => x.1) ∧
    (Grants._missing_org_fields og oa oe ot).Sublist
        ((orgRequiredSpec og oa oe ot).map fun x => x.1) ∧
    (Grants._missing_org_fields og oa oe ot).Nodup ∧
    (∀ lbl, lbl ∈ Grants._missing_org_fields og oa oe ot ↔
        (lbl, true) ∈ orgRequiredSpec og oa oe ot) := by
  have eqS : Grants._missing_student_fields a s e p t =
      ((studentRequiredSpec a s e p t).filter fun x => x.2).map fun x => x.1 := by
    simp only [Grants._missing_student_fields, studentRequiredSpec]
    by_cases h1 : (pyStrip (pyOrStr a) == "") = true <;>
    by_cases h2 : (pyStrip (pyOrStr s) == "" || s == some "— Select your school —") = true <;>
    by_cases h3 : (pyStrip (pyOrStr e) == "") = true <;>
    by_cases h4 : (pyStrip (pyOrStr p) == "") = true <;>
    by_cases h5 : (pyStrip (pyOrStr t) == "") = true <;>
    simp [h1, h2, h3, h4, h5]
  have eqO : Grants._missing_org_fields og oa oe ot =
      ((orgRequiredSpec og oa oe ot).filter fun x => x.2).map fun x => x.1 := by
    simp only [Grants._missing_org_fields, orgRequiredSpec]
    by_cases h1 : (pyStrip (pyOrStr og) == "") = true <;>
    by_cases h2 : (pyStrip (pyOrStr oa) == "") = true <;>
    by_cases h3 : (pyStrip (pyOrStr oe) == "") = true <;>
    by_cases h4 : (pyStrip (pyOrStr ot) == "") = true <;>
    simp [h1, h2, h3, h4]
  have subS : (Grants._missing_student_fields a s e p t).Sublist
      ((studentRequiredSpec a s e p t).map fun x => x.1) := by
    rw [eqS]
    exact List.Sublist.map _ (List.filter_sublist _)
  have subO : (Grants._missing_org_fields og oa oe ot).Sublist
      ((orgRequiredSpec og oa oe ot).map fun x => x.1) := by
    rw [eqO]
    exact List.Sublist.map _ (List.filter_sublist _)
  have ndS : ((studentRequiredSpec a s e p t).map fun x => x.1).Nodup := by
    simp only [studentRequiredSpec, List.map_cons, List.map_nil]
    decide
  have ndO : ((orgRequiredSpec og oa oe ot).map fun x => x.1).Nodup := by
    simp only [orgRequiredSpec, List.map_cons, List.map_nil]
    decide
  refine ⟨eqS, subS, ndS.sublist subS, ?_, eqO, subO, ndO.sublist subO, ?_⟩
  · intro lbl
    rw [eqS]
    exact mem_filter_true_map _ _
  · intro lbl
    rw [eqO]
    exact mem_filter_true_map _ _

/-! ### Form-trace lemmas -/

lemma org_form_evts (w : World) (now : UtcTime) (inp : Grants.OrgInput) :
    ((Grants.org_form w now inp).2.2).all Event.isUploadEvt = true := by
  unfold Grants.org_form
  dsimp only
  split
  · rfl
  · split
    · rfl
    · split
      · rfl
      · simp [List.all_append, grants_save_evts]

lemma student_form_evts (w : World) (now : UtcTime) (inp : Grants.StudentInput) :
    ((Grants.student_form w now inp).2.2).all Event.isUploadEvt = true := by
  unfold Grants.student_form
  dsimp only
  split
  · rfl
  · split
    · rfl
    · split
      · rfl
      · simp [List.all_append, grants_save_evts]

/-! ### C8: storage-key construction -/

/-- A concrete instant for witnesses. -/
def nowEx : UtcTime := ⟨2025, 10, 12, 3, 4, 5⟩

/-- A concrete readable blob for witnesses. -/
def blobEx : Blob := ⟨"poster.pdf", some "application/pdf", some [1, 2, 3]⟩

/-- C8. Storage keys have the form
`prefix/{compact ISO-basic UTC timestamp}_{sanitized name}`: the
sanitized name replaces every `/` and `\` of the original filename by
`_` (so `a/b.pdf` yields `a_b.pdf`), and every storage write performed
by either upload helper uses a key of exactly this form. -/
theorem c8_storage_key_format :
    (∀ pfx now name, storage_key pfx now name =
        pfx ++ "/" ++ strftime_compact now ++ "_" ++ safe_name_of name) ∧
    (∀ s, safe_name_of s =
        String.mk (s.data.map fun c => if c == '/' || c == '\\' then '_' else c)) ∧
    safe_name_of "a/b.pdf" = "a_b.pdf" ∧
    strftime_compact nowEx = "20251012T030405Z" ∧
    (∀ w now (b : Blob) pfx bkt k ct,
        Event.storagePut bkt k ct ∈ (Grants.save_upload_to_storage w now (some b) pfx).2 →
        k = storage_key pfx now b.name) ∧
    (∀ w now (b : Blob) pfx bkt k ct,
        Event.storagePut bkt k ct ∈ (Posters.save_upload_to_storage w now (some b) pfx).2 →
        k = storage_key pfx now b.name) := by
  refine ⟨fun pfx now name => rfl, ?_, by decide, by decide, ?_, ?_⟩
  · intro s
    unfold safe_name_of replaceChar
    simp only [List.map_map]
    refine congrArg String.mk (List.map_congr_left fun c _ => ?_)
    by_cases h1 : c = '/' <;> by_cases h2 : c = '\\' <;> simp [h1, h2]
  · intro w now b pfx bkt k ct hmem
    revert hmem
    unfold Grants.save_upload_to_storage
    dsimp only
    repeat' split
    all_goals intro hmem
    all_goals simp_all
  · intro w now b pfx bkt k ct hmem
    revert hmem
    unfold Posters.save_upload_to_storage
    dsimp only
    repeat' split
    all_goals intro hmem
    all_goals simp_all

/-- Witness for C8: a concrete storage write whose key has the stated
form. -/
theorem c8_witness :
    storage_key "posters" nowEx "poster.pdf" = storage_key "posters" nowEx blobEx.name :=
  c8_storage_key_format.2.2.2.2.2
    { putExn := fun _ _ => none, signRes := fun _ _ => .otherVal "u",
      publicRes := fun _ _ => some "p", insertRes := fun _ => some 1,
      smtpExn := none }
    nowEx blobEx "posters" Posters.POSTERS_BUCKET
    (storage_key "posters" nowEx "poster.pdf") "application/pdf" (by decide)

/-! ### C7: upload error handling -/

/-- A collaborator behaviour in which storage writes succeed, URL signing
raises, and a public URL is available. -/
def wSignFail : World :=
  { putExn := fun _ _ => none,
    signRes := fun _ _ => .exn "boom",
    publicRes := fun _ _ => some "https://public.example/poster",
    insertRes := fun _ => some 1,
    smtpExn := none }

/-- C7 counterexample.  In the posters variant, with the storage write
succeeding, signing failing, and a public URL available for the same key,
the upload helper returns the empty string and never requests a public
URL — contrary to the claimed fallback. -/
theorem c7_counterexample :
    (Posters.save_upload_to_storage wSignFail nowEx (some blobEx) "posters").1 = "" ∧
    ((Posters.save_upload_to_storage wSignFail nowEx (some blobEx) "posters").2).all
        (fun e => !e.isPublicReq) = true ∧
    wSignFail.publicRes Posters.POSTERS_BUCKET
        (storage_key "posters" nowEx "poster.pdf") = some "https://public.example/poster" := by
  refine ⟨rfl, rfl, rfl⟩

/-- C7 (amended).  Both upload helpers report a non-fatal warning and
return `""` on a storage write failure, and request signed URLs with a
7-day (604800 s) expiry.  On a signing failure the grants variant falls
back to requesting a public URL for the same key (returning `""` only if
that also fails), while the posters variant returns `""` immediately with
no public-URL request. -/
theorem c7_upload_error_handling :
    (∀ w now (b : Blob) pfx bs e, b.bytesRead = some bs → bs.isEmpty = false →
        w.putExn Grants.BUCKET (storage_key pfx now b.name) = some e →
        Grants.save_upload_to_storage w now (some b) pfx =
          ("", [.storagePut Grants.BUCKET (storage_key pfx now b.name)
                  (pyOrDefault b.mimeType "application/octet-stream"),
                .warn ("Upload failed for " ++ safe_name_of b.name ++ ": " ++ e)])) ∧
    (∀ w now (b : Blob) pfx bs e, b.bytesRead = some bs → bs.isEmpty = false →
        w.putExn Posters.POSTERS_BUCKET (storage_key pfx now b.name) = some e →
        Posters.save_upload_to_storage w now (some b) pfx =
          ("", [.storagePut Posters.POSTERS_BUCKET (storage_key pfx now b.name)
                  (pyOrDefault b.mimeType "application/pdf"),
                .warn ("Upload failed for " ++ safe_name_of b.name ++ ": " ++ e)])) ∧
    (∀ w now f pfx bkt k n,
        Event.signUrl bkt k n ∈ (Grants.save_upload_to_storage w now f pfx).2 →
        n = 604800) ∧
    (∀ w now f pfx bkt k n,
        Event.signUrl bkt k n ∈ (Posters.save_upload_to_storage w now f pfx).2 →
        n = 604800) ∧
    (∀ w now (b : Blob) pfx bs e u, b.bytesRead = some bs → bs.isEmpty = false →
        w.putExn Grants.BUCKET (storage_key pfx now b.name) = none →
        w.signRes Grants.BUCKET (storage_key pfx now b.name) = .exn e →
        w.publicRes Grants.BUCKET (storage_key pfx now b.name) = some u →
        (Grants.save_upload_to_storage w now (some b) pfx).1 = u ∧
        Event.publicUrl Grants.BUCKET (storage_key pfx now b.name) ∈
          (Grants.save_upload_to_storage w now (some b) pfx).2) ∧
    (∀ w now (b : Blob) pfx bs e, b.bytesRead = some bs → bs.isEmpty = false →
        w.putExn Grants.BUCKET (storage_key pfx now b.name) = none →
        w.signRes Grants.BUCKET (storage_key pfx now b.name) = .exn e →
        w.publicRes Grants.BUCKET (storage_key pfx now b.name) = none →
        (Grants.save_upload_to_storage w now (some b) pfx).1 = "") ∧
    (∀ w now (b : Blob) pfx bs e, b.bytesRead = some bs → bs.isEmpty = false →
        w.putExn Posters.POSTERS_BUCKET (storage_key pfx now b.name) = none →
        w.signRes Posters.POSTERS_BUCKET (storage_key pfx now b.name) = .exn e →
        Posters.save_upload_to_storage w now (some b) pfx =
          ("", [.storagePut Posters.POSTERS_BUCKET (storage_key pfx now b.name)
                  (pyOrDefault b.mimeType "application/pdf"),
                .signUrl Posters.POSTERS_BUCKET (storage_key pfx now b.name) 604800])) := by
  refine ⟨?_, ?_, ?_, ?_, ?_, ?_, ?_⟩
  · intro w now b pfx bs e hb he hput
    unfold Grants.save_upload_to_storage
    dsimp only
    rw [hb]
    simp [he, hput]
  · intro w now b pfx bs e hb he hput
    unfold Posters.save_upload_to_storage
    dsimp only
    rw [hb]
    simp [he, hput]
  · intro w now f pfx bkt k n hmem
    revert hmem
    unfold Grants.save_upload_to_storage
    dsimp only
    repeat' split
    all_goals intro hmem
    all_goals simp_all
  · intro w now f pfx bkt k n hmem
    revert hmem
    unfold Posters.save_upload_to_storage
    dsimp only
    repeat' split
    all_goals intro hmem
    all_goals simp_all
  · intro w now b pfx bs e u hb he hput hs hpub
    unfold Grants.save_upload_to_storage
    dsimp only
    rw [hb]
    simp [he, hput, hs, hpub]
  · intro w now b pfx bs e hb he hput hs hpub
    unfold Grants.save_upload_to_storage
    dsimp only
    rw [hb]
    simp [he, hput, hs, hpub]
  · intro w now b pfx bs e hb he hput hs
    unfold Posters.save_upload_to_storage
    dsimp only
    rw [hb]
    simp [he, hput, hs]

/-- Witness for C7 (amended): the grants variant's public-URL fallback at
a concrete input. -/
theorem c7_witness :
    (Grants.save_upload_to_storage wSignFail nowEx (some blobEx) "org_proposal").1 =
        "https://public.example/poster" ∧
    Event.publicUrl Grants.BUCKET (storage_key "org_proposal" nowEx "poster.pdf") ∈
      (Grants.save_upload_to_storage wSignFail nowEx (some blobEx) "org_proposal").2 :=
  c7_upload_error_handling.2.2.2.2.1 wSignFail nowEx blobEx "org_proposal" [1, 2, 3]
    "boom" "https://public.example/poster" rfl rfl rfl rfl rfl

/-! ### Concrete fixtures for witnesses -/

/-- A fully configured SMTP setup. -/
def cfgEx : SmtpConfig :=
  ⟨"smtp.office365.com", 587, some "user", some "pass", some "grants@x.org",
   "NHCMA Foundation Grants"⟩

/-- Collaborators all succeed except the SMTP relay. -/
def wSmtpFail : World :=
  { putExn := fun _ _ => none, signRes := fun _ _ => .otherVal "https://signed.example/u",
    publicRes := fun _ _ => some "https://public.example/u",
    insertRes := fun _ => some 7, smtpExn := some "relay down" }

/-- Collaborators all succeed except the datastore insert. -/
def wInsertFail : World :=
  { putExn := fun _ _ => none, signRes := fun _ _ => .otherVal "https://signed.example/u",
    publicRes := fun _ _ => some "https://public.example/u",
    insertRes := fun _ => none, smtpExn := none }

/-- A valid organization submission with no attachments. -/
def orgInpGood : Grants.OrgInput :=
  { submitted := true, org_name := some "Helping Org", applicant_name := some "Ann Lee",
    email := some "ann@x.org", phone := some "203-555-0100",
    eligible_nonprofit := true, eligible_report := true, eligible_benefit := true,
    project_title := some "Clean Air", proposal_pdf := none, budget_file := none,
    other_file := none }

/-- The same submission with a whitespace-only organization name. -/
def orgInpBad : Grants.OrgInput :=
  { orgInpGood with org_name := some "   " }

/-! ### C3: the confirmation mailer -/

/-- C3. `send_email` reports failure without any SMTP attempt when any of
the three configured values is missing, reports failure on a transport
exception, and — after a successful insert — a failed send still leaves
the pipeline showing the success message.  (It returns `Bool` and, being
total, never propagates an exception.) -/
theorem c3_send_email_contract :
    (∀ cfg w t c s h,
        (pyTruthy cfg.user && pyTruthy cfg.password && pyTruthy cfg.fromEmail) = false →
        send_email cfg w t c s h =
          (false, [.warn "Email not sent: SMTP credentials are missing in secrets."])) ∧
    (∀ cfg w t c s h e, w.smtpExn = some e → (send_email cfg w t c s h).1 = false) ∧
    (∀ w cfg now inp, (Grants.org_form w now inp).1 = true →
        pyTruthyInt (w.insertRes "submissions") = true →
        Event.success "Thank you! Your organization application has been submitted." ∈
          Grants.tab1 w cfg now inp) := by
  refine ⟨?_, ?_, ?_⟩
  · intro cfg w t c s h hc
    unfold send_email
    simp [hc]
  · intro cfg w t c s h e he
    unfold send_email
    split
    · rfl
    · rw [he]
  · intro w cfg now inp hpass hins
    unfold Grants.tab1
    dsimp only
    rw [hpass]
    simp [Grants.insert_submission, hins]

/-- Witness for C3: a passing submission whose insert succeeds but whose
email send fails still shows the success message. -/
theorem c3_witness :
    Event.success "Thank you! Your organization application has been submitted." ∈
      Grants.tab1 wSmtpFail cfgEx nowEx orgInpGood :=
  c3_send_email_contract.2.2 wSmtpFail cfgEx nowEx orgInpGood (by decide) (by decide)

/-! ### C1: validation failure blocks all collaborators -/

lemma eq_nil_of_isEmpty_eq {α : Type} {l : List α} (h : l.isEmpty = true) :
    l = [] := by
  cases l with
  | nil => rfl
  | cons a t => simp at h

lemma isEmpty_false_of_ne_nil {α : Type} {l : List α} (h : l ≠ []) :
    l.isEmpty = false := by
  cases l with
  | nil => exact absurd rfl h
  | cons a t => rfl

/-- C1. In all three tracks, when validation fails — a required field
missing after trimming, an eligibility checkbox unchecked, or (posters)
the abstract over the word limit — no storage upload, no datastore
insert, and no email send occurs for that submission. -/
theorem c1_validation_failure_blocks_collaborators :
    (∀ w cfg now (inp : Grants.OrgInput), inp.submitted = true →
        (Grants._missing_org_fields inp.org_name inp.applicant_name inp.email
            inp.project_title ≠ [] ∨
          (inp.eligible_nonprofit && inp.eligible_report && inp.eligible_benefit) = false) →
        noCollabCalls (Grants.tab1 w cfg now inp) = true) ∧
    (∀ w cfg now (inp : Grants.StudentInput), inp.submitted = true →
        (Grants._missing_student_fields inp.applicant_name
            (some (Grants.normalize_school inp.school)) inp.email inp.phone
            inp.project_title ≠ [] ∨
          (inp.elig_enrolled && inp.elig_report) = false) →
        noCollabCalls (Grants.tab2 w cfg now inp) = true) ∧
    (∀ w cfg now lt (inp : Posters.PosterInput),
        (Posters.poster_required_ok inp = false ∨
          Posters.abstract_too_long inp.abstract = true) →
        noCollabCalls (Posters.poster_submit_block w cfg now lt true inp).2 = true) := by
  refine ⟨?_, ?_, ?_⟩
  · intro w cfg now inp hsub hfail
    unfold Grants.tab1 Grants.org_form
    dsimp only
    rw [hsub]
    rcases hfail with hm0 | he0
    · simp [isEmpty_false_of_ne_nil hm0, noCollabCalls, Event.isCollab]
    · by_cases hm : (Grants._missing_org_fields inp.org_name inp.applicant_name
          inp.email inp.project_title).isEmpty = true
      · simp [hm, he0, noCollabCalls, Event.isCollab]
      · simp only [Bool.not_eq_true] at hm
        simp [hm, noCollabCalls, Event.isCollab]
  · intro w cfg now inp hsub hfail
    unfold Grants.tab2 Grants.student_form
    dsimp only
    rw [hsub]
    rcases hfail with hm0 | he0
    · simp [isEmpty_false_of_ne_nil hm0, noCollabCalls, Event.isCollab]
    · by_cases hm : (Grants._missing_student_fields inp.applicant_name
          (some (Grants.normalize_school inp.school)) inp.email inp.phone
          inp.project_title).isEmpty = true
      · simp [hm, he0, noCollabCalls, Event.isCollab]
      · simp only [Bool.not_eq_true] at hm
        simp [hm, noCollabCalls, Event.isCollab]
  · intro w cfg now lt inp hfail
    unfold Posters.poster_submit_block
    dsimp only
    rcases hfail with hreq | htl
    · simp [hreq, noCollabCalls, Event.isCollab]
    · by_cases hreq : Posters.poster_required_ok inp = true
      · simp [hreq, htl, noCollabCalls, Event.isCollab]
      · simp only [Bool.not_eq_true] at hreq
        simp [hreq, noCollabCalls, Event.isCollab]

/-- Witness for C1: a submission with a blank required field produces a
collaborator-free trace. -/
theorem c1_witness :
    noCollabCalls (Grants.tab1 wInsertFail cfgEx nowEx orgInpBad) = true :=
  c1_validation_failure_blocks_collaborators.1 wInsertFail cfgEx nowEx orgInpBad
    rfl (Or.inl (by decide))

/-! ### C2: persist failure blocks notify -/

/-- C2. When a submission passes validation but the insert returns no
identifier, the pipeline shows only the generic retry-or-contact-support
error after the insert attempt, and no email is sent; moreover, in every
run of any track, an email send can only occur when the insert returned a
truthy identifier. -/
theorem c2_persist_failure_blocks_notify :
    (∀ w cfg now (inp : Grants.OrgInput), (Grants.org_form w now inp).1 = true →
        w.insertRes "submissions" = none →
        Grants.tab1 w cfg now inp =
          (Grants.org_form w now inp).2.2 ++
            [.dbInsert "submissions",
             .errorMsg "There was a problem saving your submission. Please try again or contact support."]) ∧
    (∀ w cfg now (inp : Grants.StudentInput), (Grants.student_form w now inp).1 = true →
        w.insertRes "submissions" = none →
        Grants.tab2 w cfg now inp =
          (Grants.student_form w now inp).2.2 ++
            [.dbInsert "submissions",
             .errorMsg "There was a problem saving your submission. Please try again or contact support."]) ∧
    (∀ w cfg now lt (inp : Posters.PosterInput), Posters.poster_required_ok inp = true →
        Posters.abstract_too_long inp.abstract = false →
        lt ≠ some (Posters.submission_token inp) →
        w.insertRes "posters" = none →
        Event.errorMsg "There was a problem saving your submission. Please try again or contact support." ∈
          (Posters.poster_submit_block w cfg now lt true inp).2) ∧
    (∀ w cfg now inp, pyTruthyInt (w.insertRes "submissions") = false →
        noSmtp (Grants.tab1 w cfg now inp) = true) ∧
    (∀ w cfg now inp, pyTruthyInt (w.insertRes "submissions") = false →
        noSmtp (Grants.tab2 w cfg now inp) = true) ∧
    (∀ w cfg now lt submit inp, pyTruthyInt (w.insertRes "posters") = false →
        noSmtp (Posters.poster_submit_block w cfg now lt submit inp).2 = true) := by
  refine ⟨?_, ?_, ?_, ?_, ?_, ?_⟩
  · intro w cfg now inp hpass hins
    unfold Grants.tab1
    dsimp only
    rw [hpass]
    simp [Grants.insert_submission, hins, pyTruthyInt]
  · intro w cfg now inp hpass hins
    unfold Grants.tab2
    dsimp only
    rw [hpass]
    simp [Grants.insert_submission, hins, pyTruthyInt]
  · intro w cfg now lt inp hreq htl hne hins
    have hbeq : (lt == some (Posters.submission_token inp)) = false := by
      rw [beq_eq_false_iff_ne]
      exact hne
    unfold Posters.poster_submit_block Posters.insert_poster
    dsimp only
    simp [hreq, htl, hbeq, hins, pyTruthyInt]
  · intro w cfg now inp hins
    unfold Grants.tab1
    dsimp only
    split
    · split
      · next h =>
        simp [Grants.insert_submission, hins] at h
      · exact noSmtp_append
          (noSmtp_append (noSmtp_of_upload_evts (org_form_evts w now inp)) rfl) rfl
    · exact noSmtp_of_upload_evts (org_form_evts w now inp)
  · intro w cfg now inp hins
    unfold Grants.tab2
    dsimp only
    split
    · split
      · next h =>
        simp [Grants.insert_submission, hins] at h
      · exact noSmtp_append
          (noSmtp_append (noSmtp_of_upload_evts (student_form_evts w now inp)) rfl) rfl
    · exact noSmtp_of_upload_evts (student_form_evts w now inp)
  · intro w cfg now lt submit inp hins
    unfold Posters.poster_submit_block Posters.insert_poster
    dsimp only
    split
    · rfl
    · split
      · rfl
      · split
        · rfl
        · split
          · rfl
          · split
            · next h =>
              simp [hins] at h
            · split
              · exact noSmtp_append
                  (noSmtp_append
                    (noSmtp_of_upload_evts (posters_save_evts w now inp.poster_file "posters"))
                    rfl) rfl
              · rfl

/-- Witness for C2: a validated submission whose insert fails ends with
the generic error and no email. -/
theorem c2_witness :
    Grants.tab1 wInsertFail cfgEx nowEx orgInpGood =
      (Grants.org_form wInsertFail nowEx orgInpGood).2.2 ++
        [.dbInsert "submissions",
         .errorMsg "There was a problem saving your submission. Please try again or contact support."] :=
  c2_persist_failure_blocks_notify.1 wInsertFail cfgEx nowEx orgInpGood (by decide) rfl

/-! ### C6: the poster abstract word limit -/

/-- An abstract of 251 single-letter words. -/
def abstract251 : String := String.intercalate " " (List.replicate 251 "w")

/-- One 300-character word. -/
def oneLongWord : String := String.mk (List.replicate 300 'x')

set_option maxRecDepth 20000 in
/-- C6. The poster length check fails exactly on whitespace-delimited
word counts above 250: a 250-word abstract passes, a 251-or-more-word
abstract fails and the submission is rejected with only the warning —
before any storage or datastore call; the count is of whitespace-split
words, not characters (a 300-character single word passes). -/
theorem c6_poster_abstract_word_limit :
    (∀ a, wordCount a = 250 → Posters.abstract_too_long a = false) ∧
    (∀ a, 251 ≤ wordCount a → Posters.abstract_too_long a = true) ∧
    (∀ w cfg now lt (inp : Posters.PosterInput),
        Posters.poster_required_ok inp = true →
        Posters.abstract_too_long inp.abstract = true →
        (Posters.poster_submit_block w cfg now lt true inp).2 =
          [.warn "Abstract appears to exceed 250 words. Please shorten."] ∧
        noCollabCalls (Posters.poster_submit_block w cfg now lt true inp).2 = true) ∧
    wordCount abstract251 = 251 ∧
    Posters.abstract_too_long abstract251 = true ∧
    wordCount oneLongWord = 1 ∧
    oneLongWord.length = 300 ∧
    Posters.abstract_too_long oneLongWord = false := by
  refine ⟨?_, ?_, ?_, by decide, by decide, by decide, by decide, by decide⟩
  · intro a h
    simp [Posters.abstract_too_long, h]
  · intro a h
    simp only [Posters.abstract_too_long, decide_eq_true_iff]
    omega
  · intro w cfg now lt inp hreq htl
    constructor
    · unfold Posters.poster_submit_block
      dsimp only
      simp [hreq, htl]
    · unfold Posters.poster_submit_block
      dsimp only
      simp [hreq, htl, noCollabCalls, Event.isCollab]

set_option maxRecDepth 20000 in
/-- Witness for C6: a concrete over-limit submission is rejected with
only the length warning. -/
theorem c6_witness :
    (Posters.poster_submit_block wSmtpFail cfgEx nowEx none true
        { category := "Student", lead_author := "Ann Lee",
          contact_email := "ann@x.org", inst_lead := "", co1 := "", co2 := "",
          co3 := "", inst_co1 := "", inst_co2 := "", inst_co3 := "",
          title := "Sleep Study", abstract := abstract251,
          poster_file := none }).2 =
      [.warn "Abstract appears to exceed 250 words. Please shorten."] :=
  (c6_poster_abstract_word_limit.2.2.1 wSmtpFail cfgEx nowEx none _
    (by decide) (by decide)).1

/-! ### C9: the in-session duplicate token -/

/-- A valid poster submission. -/
def posterInpA : Posters.PosterInput :=
  { category := "Student", lead_author := "Ann Lee", contact_email := "ann@x.org",
    inst_lead := "", co1 := "Cara", co2 := "", co3 := "", inst_co1 := "",
    inst_co2 := "", inst_co3 := "", title := "Sleep Study",
    abstract := "Short abstract text", poster_file := none }

/-- The same submission from a different co-author — a distinct
submission with an identical duplicate token. -/
def posterInpB : Posters.PosterInput := { posterInpA with co1 := "Dana" }

/-- C9. A validated poster submission is skipped as a duplicate exactly
when its hand-built token equals the single token held in session state;
a successful submission overwrites that slot with its own token (so only
the immediately-previous submission is suppressed), and two distinct
submissions whose token fields coincide collide. -/
theorem c9_duplicate_token_gate :
    (∀ w cfg now lt (inp : Posters.PosterInput),
        Posters.poster_required_ok inp = true →
        Posters.abstract_too_long inp.abstract = false →
        ((Event.infoMsg "This submission was already received. (Duplicate prevented)" ∈
            (Posters.poster_submit_block w cfg now lt true inp).2) ↔
          lt = some (Posters.submission_token inp))) ∧
    (∀ w cfg now lt (inp : Posters.PosterInput),
        Posters.poster_required_ok inp = true →
        Posters.abstract_too_long inp.abstract = false →
        lt ≠ some (Posters.submission_token inp) →
        pyTruthyInt (w.insertRes "posters") = true →
        (Posters.poster_submit_block w cfg now lt true inp).1 =
          some (Posters.submission_token inp)) ∧
    (posterInpA ≠ posterInpB ∧
      Posters.submission_token posterInpA = Posters.submission_token posterInpB) := by
  refine ⟨?_, ?_, by decide, by decide⟩
  · intro w cfg now lt inp hreq htl
    unfold Posters.poster_submit_block Posters.insert_poster
    dsimp only
    by_cases hd : (lt == some (Posters.submission_token inp)) = true
    · simp [hreq, htl, hd, beq_iff_eq.mp hd]
    · simp only [Bool.not_eq_true] at hd
      have hne : lt ≠ some (Posters.submission_token inp) :=
        beq_eq_false_iff_ne.mp hd
      constructor
      · intro hmem
        exfalso
        rw [if_neg (by simp), if_neg (by rw [hreq]; simp),
          if_neg (by rw [htl]; simp), if_neg (by rw [hd]; simp)] at hmem
        revert hmem
        cases hpf : inp.poster_file with
        | none =>
          dsimp only
          split
          · intro hmem
            simp only [List.mem_append] at hmem
            rcases hmem with ((h | h) | h) | h
            · simp at h
            · simp at h
            · simp at h
            · exact send_email_no_infoMsg _ _ _ _ _ _ _ h
          · intro hmem
            simp at hmem
        | some f =>
          dsimp only
          split
          · intro hmem
            simp only [List.mem_append] at hmem
            rcases hmem with ((h | h) | h) | h
            · exact infoMsg_not_mem_of_upload_evts
                (posters_save_evts w now (some f) "posters") _ h
            · simp at h
            · simp at h
            · exact send_email_no_infoMsg _ _ _ _ _ _ _ h
          · intro hmem
            simp only [List.mem_append] at hmem
            rcases hmem with (h | h) | h
            · exact infoMsg_not_mem_of_upload_evts
                (posters_save_evts w now (some f) "posters") _ h
            · simp at h
            · simp at h
      · intro heq
        exact absurd heq hne
  · intro w cfg now lt inp hreq htl hne hins
    have hd : (lt == some (Posters.submission_token inp)) = false :=
      beq_eq_false_iff_ne.mpr hne
    unfold Posters.poster_submit_block Posters.insert_poster
    dsimp only
    simp [hreq, htl, hd, hins]

/-- Witness for C9: resubmitting while the session slot holds the same
token is reported as a duplicate. -/
theorem c9_witness :
    (Event.infoMsg "This submission was already received. (Duplicate prevented)" ∈
        (Posters.poster_submit_block wSmtpFail cfgEx nowEx
          (some (Posters.submission_token posterInpA)) true posterInpA).2) ↔
      some (Posters.submission_token posterInpA) =
        some (Posters.submission_token posterInpA) :=
  c9_duplicate_token_gate.1 wSmtpFail cfgEx nowEx
    (some (Posters.submission_token posterInpA)) posterInpA (by decide) (by decide)

/-- Witness for C10 at a concrete zero-byte blob. -/
theorem c10_witness :
    Grants.save_upload_to_storage
        { putExn := fun _ _ => none, signRes := fun _ _ => .otherVal "u",
          publicRes := fun _ _ => some "p", insertRes := fun _ => some 1,
          smtpExn := none }
        ⟨2025, 10, 12, 3, 4, 5⟩
        (some ⟨"empty.pdf", some "application/pdf", some []⟩) "org_proposal" =
      ("", [.warn "Upload failed for empty.pdf: could not read file bytes"]) :=
  (c10_empty_bytes_short_circuit _ _ _ _ rfl).1

end NHCMA
